import Mathlib

/-!
Verification development for the modulir-sample static-site build engine.

The definitions below are a shallow embedding of the Go sources:
`src/main.go` (the phased build driver, content renderers, sorting,
grouping, photo fetch-and-resize) and the alternate revisions under
`src/unnamed/`.  External collaborators (YAML parsing, Markdown and
template rendering, the change tracker, the filesystem, the network and
the `gm` subprocess) are modelled as environment records whose fields
give those collaborators' results, while every observable action they
take is recorded in an explicit effect or event trace.
-/

namespace ModulirSample

/-! ## String helpers mirroring Go's `path/filepath` and `strings` uses -/

/-- Splits a character list on a separator character, like Go's
`strings.Split` (for a one-character separator). -/
def chunksBy (sep : Char) : List Char → List (List Char)
  | [] => [[]]
  | c :: cs =>
    let r := chunksBy sep cs
    if c = sep then [] :: r
    else
      match r with
      | [] => [[c]]
      | g :: gs => (c :: g) :: gs

/-- Go `strings.Split(s, sep)` for a single-character separator. -/
def stringSplitChar (sep : Char) (s : String) : List String :=
  (chunksBy sep s.data).map List.asString

/-- Go `filepath.Base`: the last path component. -/
def filepathBase (s : String) : String :=
  (stringSplitChar '/' s).getLastD s

/-- Go `filepath.Dir`: everything before the last path component. -/
def filepathDir (s : String) : String :=
  String.intercalate "/" ((stringSplitChar '/' s).dropLast)

/-- Go `filepath.Ext`: the suffix of the base name starting at its final
dot, or the empty string when the base has no dot. -/
def filepathExt (s : String) : String :=
  let rev := (filepathBase s).data.reverse
  if rev.contains '.' then ((rev.takeWhile (fun c => c ≠ '.')) ++ ['.']).reverse.asString
  else ""

/-- Go `strings.TrimSuffix`. -/
def trimSuffixStr (s suf : String) : String :=
  if suf.data.isSuffixOf s.data then (s.data.take (s.data.length - suf.data.length)).asString
  else s

/-- Helper for `containsSub`: does the pattern occur at the head? -/
def chStartsWith : List Char → List Char → Bool
  | [], _ => true
  | _ :: _, [] => false
  | p :: ps, c :: cs => p == c && chStartsWith ps cs

/-- Helper for `containsSub`: does the pattern occur anywhere? -/
def containsSubAux (pat : List Char) : List Char → Bool
  | [] => pat.isEmpty
  | c :: cs => chStartsWith pat (c :: cs) || containsSubAux pat cs

/-- Go `strings.Contains`. -/
def containsSub (s pat : String) : Bool := containsSubAux pat.data s.data

/-- Go `filepath.Join` for the two-argument uses in this program. -/
def pathJoin (a b : String) : String := a ++ "/" ++ b

/-! ## Time

Go `time.Time` values are instants; `Year()` is monotone in the instant.
We model an instant as a year plus an offset inside the year, compared
lexicographically, which is exactly the structure the program observes
through `Before` and `Year()`. -/

structure GoTime where
  year : Int
  sub : Nat
deriving DecidableEq, Repr

/-- Go `time.Time.Before`: strict instant order (lexicographic here). -/
def GoTime.beforeB (t u : GoTime) : Bool :=
  t.year < u.year || (t.year == u.year && t.sub < u.sub)

/-- Reflexive companion of `GoTime.beforeB`. -/
def GoTime.leB (t u : GoTime) : Bool :=
  t.year < u.year || (t.year == u.year && t.sub ≤ u.sub)

/-! ## Content data model (structs from `src/main.go`) -/

/-- The `Article` struct of `src/main.go`. -/
structure Article where
  attributions : String := ""
  content : String := ""
  draft : Bool := false
  hnLink : String := ""
  hook : String := ""
  hookImageURL : String := ""
  image : String := ""
  location : String := ""
  publishedAt : Option GoTime := none
  slug : String := ""
  tags : List String := []
  title : String := ""
  toc : String := ""
deriving DecidableEq, Repr

/-- The `Fragment` struct of `src/main.go`. -/
structure Fragment where
  attributions : String := ""
  content : String := ""
  draft : Bool := false
  hnLink : String := ""
  hook : String := ""
  image : String := ""
  location : String := ""
  publishedAt : Option GoTime := none
  slug : String := ""
  title : String := ""
deriving DecidableEq, Repr

/-- The `Passage` struct of `src/main.go`. -/
structure Passage where
  content : String := ""
  contentRaw : String := ""
  draft : Bool := false
  issue : String := ""
  publishedAt : Option GoTime := none
  slug : String := ""
  title : String := ""
deriving DecidableEq, Repr

/-- The `Photo` struct of `src/main.go`. -/
structure Photo where
  description : String := ""
  keepInHomeRotation : Bool := false
  originalImageURL : String := ""
  occurredAt : Option GoTime := none
  slug : String := ""
  title : String := ""
deriving DecidableEq, Repr

/-- The fields of the external `talks.Talk` struct that this program
reads (title, slug, publish time). -/
structure Talk where
  publishedAt : Option GoTime := none
  slug : String := ""
  title : String := ""
deriving DecidableEq, Repr

/-- Dereference of the `PublishedAt` pointer, as done by the sort and
grouping code (a nil pointer would panic in Go; validated items always
carry a time). -/
def Article.pub (a : Article) : GoTime := a.publishedAt.getD ⟨0, 0⟩

/-- Dereference of a fragment's `PublishedAt` pointer. -/
def Fragment.pub (f : Fragment) : GoTime := f.publishedAt.getD ⟨0, 0⟩

/-- Dereference of a passage's `PublishedAt` pointer. -/
def Passage.pub (p : Passage) : GoTime := p.publishedAt.getD ⟨0, 0⟩

/-- Dereference of a photo's `OccurredAt` pointer. -/
def Photo.occ (p : Photo) : GoTime := p.occurredAt.getD ⟨0, 0⟩

/-- Dereference of a talk's `PublishedAt` pointer. -/
def Talk.pub (t : Talk) : GoTime := t.publishedAt.getD ⟨0, 0⟩

/-- `Article.validate` from `src/main.go`: location, title and publish
date are required. -/
def Article.validate (a : Article) (source : String) : Option String :=
  if a.location = "" then some ("No location for article: " ++ source)
  else if a.title = "" then some ("No title for article: " ++ source)
  else if a.publishedAt = none then some ("No publish date for article: " ++ source)
  else none

/-- `Fragment.validate` from `src/main.go`: title and publish date are
required. -/
def Fragment.validate (f : Fragment) (source : String) : Option String :=
  if f.title = "" then some ("No title for fragment: " ++ source)
  else if f.publishedAt = none then some ("No publish date for fragment: " ++ source)
  else none

/-- `Passage.validate` from `src/main.go`: title and publish date are
required. -/
def Passage.validate (p : Passage) (source : String) : Option String :=
  if p.title = "" then some ("No title for passage: " ++ source)
  else if p.publishedAt = none then some ("No publish date for passage: " ++ source)
  else none

/-! ## Deterministic ordering (`sortArticles` … `sortTalks`)

Each sort function calls Go's `sort.Slice` with a strict comparator.
`sort.Slice` guarantees that the result is a permutation of the input
that is ordered with respect to the comparator; it is documented *not*
to be stable.  Its faithful embedding is therefore the relation below
between input and output. -/

/-- Postcondition of Go `sort.Slice` with comparator `less`: the output
is a permutation of the input, and no element is strictly less than an
element placed before it. -/
def goSortSlice (less : α → α → Bool) (input output : List α) : Prop :=
  List.Perm output input ∧ List.Pairwise (fun x y => less y x = false) output

/-- Comparator closure of `sortArticles`:
`articles[j].PublishedAt.Before(*articles[i].PublishedAt)`. -/
def articleLess (x y : Article) : Bool := GoTime.beforeB y.pub x.pub

/-- Comparator closure of `sortFragments`. -/
def fragmentLess (x y : Fragment) : Bool := GoTime.beforeB y.pub x.pub

/-- Comparator closure of `sortPassages`. -/
def passageLess (x y : Passage) : Bool := GoTime.beforeB y.pub x.pub

/-- Comparator closure of `sortPhotos` (keyed on `OccurredAt`). -/
def photoLess (x y : Photo) : Bool := GoTime.beforeB y.occ x.occ

/-- Comparator closure of `sortTalks`. -/
def talkLess (x y : Talk) : Bool := GoTime.beforeB y.pub x.pub

/-- `sortArticles` as the `sort.Slice` input/output relation. -/
def sortArticlesRel (input output : List Article) : Prop :=
  goSortSlice articleLess input output

/-- `sortFragments` as the `sort.Slice` input/output relation. -/
def sortFragmentsRel (input output : List Fragment) : Prop :=
  goSortSlice fragmentLess input output

/-- `sortPassages` as the `sort.Slice` input/output relation. -/
def sortPassagesRel (input output : List Passage) : Prop :=
  goSortSlice passageLess input output

/-- `sortPhotos` as the `sort.Slice` input/output relation. -/
def sortPhotosRel (input output : List Photo) : Prop :=
  goSortSlice photoLess input output

/-- `sortTalks` as the `sort.Slice` input/output relation. -/
def sortTalksRel (input output : List Talk) : Prop :=
  goSortSlice talkLess input output

/-! ## Grouping by year (`groupArticlesByYear`) -/

/-- The `articleYear` struct of `src/main.go`. -/
structure ArticleYear where
  year : Int
  articles : List Article
deriving DecidableEq, Repr

/-- Loop body of `groupArticlesByYear`: `cur` is the currently open year
group (`year` pointer in Go); a new group opens whenever an article's
publication year differs from the open group's year. -/
def groupGo (cur : ArticleYear) : List Article → List ArticleYear
  | [] => [cur]
  | a :: rest =>
    if (Article.pub a).year = cur.year then
      groupGo { cur with articles := cur.articles ++ [a] } rest
    else
      cur :: groupGo ⟨(Article.pub a).year, [a]⟩ rest

/-- `groupArticlesByYear` from `src/main.go`. -/
def groupArticlesByYear : List Article → List ArticleYear
  | [] => []
  | a :: rest => groupGo ⟨(Article.pub a).year, [a]⟩ rest

/-! ## Home-page photo selection (`selectRandomPhoto`) -/

/-- The candidate pool built by `selectRandomPhoto`: the first
`numRecent = min(20, len)` photos, plus — when there are more — the
photos of `photos[numRecent : len-1]` tagged `KeepInHomeRotation`. -/
def randomPool (photos : List Photo) : List Photo :=
  let numRecent := if photos.length < 20 then photos.length else 20
  let recent := photos.take numRecent
  if photos.length > numRecent then
    recent ++ ((photos.drop numRecent).dropLast).filter (fun p => p.keepInHomeRotation)
  else recent

/-- `selectRandomPhoto` from `src/main.go`; `r` models the value drawn
by `rand.Intn` (reduced modulo the pool size, which is what `Intn`
guarantees about its result). -/
def selectRandomPhoto (r : Nat) (photos : List Photo) : Option Photo :=
  if photos.length < 1 then none
  else
    let pool := randomPool photos
    pool.get? (r % pool.length)

/-! ## Photo fetch and resize (`fetchAndResizePhoto`, `resizeImage`) -/

/-- Observable side effects of renderer and photo jobs. -/
inductive Effect
  | maceRender (target : String)
  | fetchFile (url target : String)
  | gmConvert (source target : String) (width quality : Nat)
  | createFile (path : String)
deriving DecidableEq, Repr

/-- The `TempDir` constant. -/
def tempDir : String := "./tmp"

/-- External collaborators of `fetchAndResizePhoto`: marker existence
(`mfile.Exists`), the HTTP fetch outcome, the `gm convert` outcome per
resize width, and the marker-file creation outcome. -/
structure FetchResizeEnv where
  fileExistsAt : String → Bool
  fetchErr : Option String
  resizeErr : Nat → Option String
  markerErr : Option String

/-- `resizeImage` from `src/main.go`: runs `gm convert source
-auto-orient -resize {width}x -quality 85 target`. -/
def resizeImage (env : FetchResizeEnv) (source target : String) (width : Nat) :
    Option String × Effect :=
  (env.resizeErr width, Effect.gmConvert source target width 85)

/-- The extensionless output path `filepath.Join(dir, photo.Slug)`. -/
def fapSourceNoExt (dir : String) (photo : Photo) : String := pathJoin dir photo.slug

/-- The marker-file path `sourceNoExt + ".marker"`. -/
def fapMarkerPath (dir : String) (photo : Photo) : String :=
  fapSourceNoExt dir photo ++ ".marker"

/-- The `resizeMatrix` of `fetchAndResizePhoto`: four output targets
with widths 333, 667, 1500 and 3000. -/
def resizeMatrix (sourceNoExt : String) : List (String × Nat) :=
  [(sourceNoExt ++ ".jpg", 333),
   (sourceNoExt ++ "@2x.jpg", 667),
   (sourceNoExt ++ "_large.jpg", 1500),
   (sourceNoExt ++ "_large@2x.jpg", 3000)]

/-- The resize loop of `fetchAndResizePhoto`: runs `resizeImage` for
each matrix entry and stops at the first error. -/
def runResizes (env : FetchResizeEnv) (originalPath : String) :
    List (String × Nat) → Option String × List Effect
  | [] => (none, [])
  | (target, width) :: rest =>
    match resizeImage env originalPath target width with
    | (some e, eff) => (some e, [eff])
    | (none, eff) =>
      let r := runResizes env originalPath rest
      (r.1, eff :: r.2)

/-- `fetchAndResizePhoto` from `src/main.go`: skip when the marker file
exists; otherwise fetch the original, run the four resizes, and create
the marker file.  Returns (executed, error, effects). -/
def fetchAndResizePhoto (env : FetchResizeEnv) (dir : String) (photo : Photo) :
    Bool × Option String × List Effect :=
  let sourceNoExt := fapSourceNoExt dir photo
  if env.fileExistsAt (fapMarkerPath dir photo) then (false, none, [])
  else
    let originalPath := pathJoin tempDir (photo.slug ++ "_original.jpg")
    let fetchEff := Effect.fetchFile photo.originalImageURL originalPath
    match env.fetchErr with
    | some e => (true, some ("Error fetching photograph: " ++ photo.slug ++ ": " ++ e), [fetchEff])
    | none =>
      match runResizes env originalPath (resizeMatrix sourceNoExt) with
      | (some e, effs) =>
        (true, some ("Error resizing photograph: " ++ photo.slug ++ ": " ++ e),
         fetchEff :: effs)
      | (none, effs) =>
        match env.markerErr with
        | some e =>
          (true, some ("Error creating marker for photograph: " ++ photo.slug ++ ": " ++ e),
           fetchEff :: effs ++ [Effect.createFile (fapMarkerPath dir photo)])
        | none => (true, none, fetchEff :: effs ++ [Effect.createFile (fapMarkerPath dir photo)])

/-! ## Content renderers

Each renderer's external collaborators are an environment record:
`myaml.ParseFileFrontmatter` (called with a forced context, so the file
is always parsed; its boolean result reports whether the source's
fingerprint changed), `renderComplexMarkdown`, `mtoc.RenderFromHTML`,
`pathAsImage` probes and `mace.Render` (which writes the target file).
Each renderer returns (item, executed, error, effects). -/

/-- External collaborators of `renderArticle`. -/
structure RenderArticleEnv where
  parse : Except String (Article × String × Bool)
  forced : Bool
  md : String → String
  toc : String → Except String String
  hookImage : Option String
  twitterImage : Option String
  maceErr : Option String

/-- `renderArticle` from `src/main.go`: parse and validate always, set
draft/slug, return right after validation when the source is unchanged
and the context is not forced, otherwise render Markdown, extract the
table of contents, probe hook/twitter images and render the template.
(The twitter card only feeds template locals and is omitted from the
observable results.) -/
def renderArticle (env : RenderArticleEnv) (sourceDir targetDir source : String) :
    Option Article × Bool × Option String × List Effect :=
  match env.parse with
  | .error e => (none, true, some e, [])
  | .ok (a0, data, changed) =>
    match a0.validate source with
    | some e => (none, true, some e, [])
    | none =>
      let a1 := { a0 with
        draft := containsSub (filepathBase (filepathDir source)) "drafts",
        slug := trimSuffixStr (filepathBase source) (filepathExt source) }
      if !changed && !env.forced then (some a1, true, none, [])
      else
        let a2 := { a1 with content := env.md data }
        match env.toc a2.content with
        | .error e => (none, true, some e, [])
        | .ok tocHtml =>
          let a3 := { a2 with toc := tocHtml }
          let a4 :=
            match env.hookImage with
            | some fmt => { a3 with hookImageURL := "/assets/" ++ a3.slug ++ "/hook." ++ fmt }
            | none => a3
          let target := pathJoin targetDir a4.slug
          match env.maceErr with
          | some e => (none, true, some e, [Effect.maceRender target])
          | none => (some a4, true, none, [Effect.maceRender target])

/-- External collaborators of `renderFragment`. -/
structure RenderFragmentEnv where
  parse : Except String (Fragment × String × Bool)
  forced : Bool
  md : String → String
  twitterImage : Option String
  maceErr : Option String

/-- `renderFragment` from `src/main.go`: same shape as `renderArticle`
but without a table of contents or hook image. -/
def renderFragment (env : RenderFragmentEnv) (sourceDir targetDir source : String) :
    Option Fragment × Bool × Option String × List Effect :=
  match env.parse with
  | .error e => (none, true, some e, [])
  | .ok (f0, data, changed) =>
    match f0.validate source with
    | some e => (none, true, some e, [])
    | none =>
      let f1 := { f0 with
        draft := containsSub (filepathBase (filepathDir source)) "drafts",
        slug := trimSuffixStr (filepathBase source) (filepathExt source) }
      if !changed && !env.forced then (some f1, true, none, [])
      else
        let f2 := { f1 with content := env.md data }
        let target := pathJoin (pathJoin targetDir "fragments") f2.slug
        match env.maceErr with
        | some e => (none, true, some e, [Effect.maceRender target])
        | none => (some f2, true, none, [Effect.maceRender target])

/-- External collaborators of `renderPassage`. -/
structure RenderPassageEnv where
  parse : Except String (Passage × String × Bool)
  forced : Bool
  md : String → String
  maceErr : Option String

/-- `renderPassage` from `src/main.go`: parse, validate, set raw
content/draft/slug, require the slug to carry an issue number, then skip
or render as for articles. -/
def renderPassage (env : RenderPassageEnv) (targetDir source : String) :
    Option Passage × Bool × Option String × List Effect :=
  match env.parse with
  | .error e => (none, true, some e, [])
  | .ok (p0, data, changed) =>
    match p0.validate source with
    | some e => (none, true, some e, [])
    | none =>
      let p1 := { p0 with
        contentRaw := data,
        draft := containsSub (filepathBase (filepathDir source)) "drafts",
        slug := trimSuffixStr (filepathBase source) (filepathExt source) }
      let slugParts := stringSplitChar '-' p1.slug
      if slugParts.length < 2 then
        (none, true, some ("Expected passage slug to contain issue number: " ++ p1.slug), [])
      else
        let p2 := { p1 with issue := slugParts.headD "" }
        if !changed && !env.forced then (some p2, true, none, [])
        else
          let p3 := { p2 with content := env.md p2.contentRaw }
          let target := targetDir ++ "/passages/" ++ p3.slug
          match env.maceErr with
          | some e => (none, true, some e, [Effect.maceRender target])
          | none => (some p3, true, none, [Effect.maceRender target])

/-- External collaborators of `renderTalk`: the change-tracker answer
for the source (`c.Changed`), the force flag, the external
`talks.Render` parse and the template render. -/
structure RenderTalkEnv where
  changed : Bool
  forced : Bool
  talkRender : Except String Talk
  maceErr : Option String

/-- `renderTalk` from `src/main.go`: returns executed=false right away
when the source is unchanged and the context is not forced; otherwise
parses the talk and renders its template. -/
def renderTalk (env : RenderTalkEnv) (targetDir source : String) :
    Option Talk × Bool × Option String × List Effect :=
  if !env.changed && !env.forced then (none, false, none, [])
  else
    match env.talkRender with
    | .error e => (none, true, some e, [])
    | .ok talk =>
      let target := pathJoin targetDir talk.slug
      match env.maceErr with
      | some e => (some talk, true, some e, [Effect.maceRender target])
      | none => (some talk, true, none, [Effect.maceRender target])

/-! ## Synchronization of aggregate appends

Phase-1 job bodies touch the shared aggregate slices.  We record the
synchronization-relevant operations each job body performs, in program
order, and check whether every append happens under a held mutex. -/

/-- Synchronization-relevant operations of a phase-1 job body. -/
inductive JobOp
  | render
  | lockMu (m : String)
  | unlockMu (m : String)
  | appendColl (coll : String)
  | setFlag (flag : String)
deriving DecidableEq, Repr

/-- Body of the articles job in `src/main.go` (lines 243-251): render,
then on success append to the shared `articles` slice — no lock. -/
def mainArticleJobOps (renderOk : Bool) : List JobOp :=
  if renderOk then [JobOp.render, JobOp.appendColl "articles"] else [JobOp.render]

/-- Body of the fragments job in `src/main.go` (lines 279-287). -/
def mainFragmentJobOps (renderOk : Bool) : List JobOp :=
  if renderOk then [JobOp.render, JobOp.appendColl "fragments"] else [JobOp.render]

/-- Body of the passages job in `src/main.go` (lines 361-369). -/
def mainPassageJobOps (renderOk : Bool) : List JobOp :=
  if renderOk then [JobOp.render, JobOp.appendColl "passages"] else [JobOp.render]

/-- Body of the talks job in `src/main.go` (lines 485-493): appends only
when the render executed and succeeded. -/
def mainTalkJobOps (executedOk : Bool) : List JobOp :=
  if executedOk then [JobOp.render, JobOp.appendColl "talks"] else [JobOp.render]

/-- Tail of `renderArticle` in `src/unnamed/part_000` (lines 1892-1896):
the append and changed-flag write happen under `articlesMu`. -/
def part000ArticleJobOps (renderOk : Bool) : List JobOp :=
  if renderOk then
    [JobOp.render, JobOp.lockMu "articlesMu", JobOp.appendColl "articles",
     JobOp.setFlag "articlesChanged", JobOp.unlockMu "articlesMu"]
  else [JobOp.render]

/-- Body of the passages job in `src/unnamed/part_000` (lines 371-379):
the append is not protected by any mutex. -/
def part000PassageJobOps (renderOk : Bool) : List JobOp :=
  if renderOk then [JobOp.render, JobOp.appendColl "passages"] else [JobOp.render]

/-- Body of the talks job in `src/unnamed/part_000` (lines 514-522). -/
def part000TalkJobOps (executedOk : Bool) : List JobOp :=
  if executedOk then [JobOp.render, JobOp.appendColl "talks"] else [JobOp.render]

/-- Checks that every `appendColl` in the operation list happens while
at least one mutex is held (`depth` counts currently held locks). -/
def appendsProtectedAux : Nat → List JobOp → Bool
  | _, [] => true
  | depth, op :: rest =>
    match op with
    | JobOp.lockMu _ => appendsProtectedAux (depth + 1) rest
    | JobOp.unlockMu _ => appendsProtectedAux (depth - 1) rest
    | JobOp.appendColl _ => decide (0 < depth) && appendsProtectedAux depth rest
    | _ => appendsProtectedAux depth rest

/-- Does every append to a shared aggregate collection in this job body
happen under a held mutex? -/
def appendsProtected (ops : List JobOp) : Bool := appendsProtectedAux 0 ops

/-! ## The phased build driver (`build` in `src/main.go`)

The driver is embedded as a trace-producing computation: every call to
`mfile.EnsureDir` / `mfile.EnsureSymlink`, every submission to the job
channel `c.Jobs`, the barrier `c.Wait()` and the normalization sorts
appear as events, in program order.  External results (configuration
decode, directory listings, the pages `_meta.yaml` parse, the barrier's
verdict, and the photo/sequence metadata loaded by phase-1 jobs) come
from a `BuildEnv`. -/

/-- Identity of a job submitted to the job channel. -/
inductive JobTag
  | article (source : String)
  | fragment (source : String)
  | javascripts
  | page (source : String)
  | passage (source : String)
  | photosMeta
  | robotsTxt
  | sequenceMeta (source : String)
  | stylesheets
  | talk (source : String)
  | articlesIndex
  | articlesFeedAll
  | articlesFeedPostgres
  | fragmentsIndex
  | fragmentsFeed
  | homePage
  | passagesIndex
  | photoIndex
  | photoFetchResize (slug : String)
  | sequencePage (slug photoSlug : String)
  | sequenceFetchResize (slug photoSlug : String)
deriving DecidableEq, Repr

/-- The phase-2 aggregate jobs: those that read the aggregate
collections (articles, fragments, passages, photos, sequences, talks)
populated by phase-1 jobs. -/
def JobTag.isAggregate : JobTag → Bool
  | JobTag.articlesIndex | JobTag.articlesFeedAll | JobTag.articlesFeedPostgres
  | JobTag.fragmentsIndex | JobTag.fragmentsFeed | JobTag.homePage
  | JobTag.passagesIndex | JobTag.photoIndex | JobTag.photoFetchResize _
  | JobTag.sequencePage _ _ | JobTag.sequenceFetchResize _ _ => true
  | _ => false

/-- An observable action of the build driver, in program order. -/
inductive BuildEvent
  | ensureDir (dir : String)
  | ensureSymlink (source target : String)
  | enqueue (tag : JobTag)
  | wait
  | sortAll
deriving DecidableEq, Repr

/-- Is this event the phase barrier? -/
def BuildEvent.isWaitEv : BuildEvent → Bool
  | BuildEvent.wait => true
  | _ => false

/-- Is this event the submission of a phase-2 aggregate job? -/
def BuildEvent.isAggregateEnqueue : BuildEvent → Bool
  | BuildEvent.enqueue t => t.isAggregate
  | _ => false

/-- External results consumed by the build driver. -/
structure BuildEnv where
  decodeErr : Option String
  drafts : Bool
  ensureDirErr : String → Option String
  ensureSymlinkErr : String → Option String
  readDir : String → Except String (List String)
  pagesMeta : Except String Bool
  waitOk : Bool
  photos : List Photo
  sequences : List (String × List Photo)

/-- Build-driver computations: an event trace plus either a normal
result or an early `return` carrying the build function's final value
(`Except.error` of the early result). -/
structure EvM (α : Type) where
  events : List BuildEvent
  result : Except (Except String Unit) α

/-- Sequencing of build-driver computations: early returns stop the
trace, otherwise traces concatenate. -/
def EvM.bind (x : EvM α) (k : α → EvM β) : EvM β :=
  match x with
  | ⟨evts, Except.error o⟩ => ⟨evts, Except.error o⟩
  | ⟨evts, Except.ok a⟩ => ⟨evts ++ (k a).events, (k a).result⟩

instance : Monad EvM where
  pure a := ⟨[], Except.ok a⟩
  bind := EvM.bind

/-- Emit one driver event. -/
def emit (e : BuildEvent) : EvM Unit := ⟨[e], Except.ok ()⟩

/-- Emit a list of driver events. -/
def emitAll (es : List BuildEvent) : EvM Unit := ⟨es, Except.ok ()⟩

/-- The driver's `return nil` (used even on some error paths). -/
def abortOk : EvM Unit := ⟨[], Except.error (Except.ok ())⟩

/-- The driver's `return err`. -/
def abortErr (e : String) : EvM Unit := ⟨[], Except.error (Except.error e)⟩

/-- Lift an external `mfile.ReadDir` result (errors propagate as the
build function's error). -/
def readDirE (env : BuildEnv) (dir : String) : EvM (List String) :=
  match env.readDir dir with
  | Except.error e => ⟨[], Except.error (Except.error e)⟩
  | Except.ok l => ⟨[], Except.ok l⟩

/-- Directory listing plus optional drafts listing, as done for
articles, fragments, passages, sequences and talks. -/
def readSources (env : BuildEnv) (dir draftsDir : String) : EvM (List String) := do
  let sources ← readDirE env dir
  if env.drafts then
    let drafts ← readDirE env draftsDir
    pure (sources ++ drafts)
  else
    pure sources

/-- The `commonDirs` loop of `build`: `mfile.EnsureDir` per directory;
on error the source does `return nil` (the error is discarded). -/
def ensureCommonDirs (env : BuildEnv) : List String → EvM Unit
  | [] => pure ()
  | d :: rest => do
    emit (BuildEvent.ensureDir d)
    if (env.ensureDirErr d).isSome then abortOk
    else ensureCommonDirs env rest

/-- The `commonSymlinks` loop of `build`: `mfile.EnsureSymlink` per
pair; on error the source does `return nil` (the error is discarded). -/
def ensureCommonSymlinks (env : BuildEnv) : List (String × String) → EvM Unit
  | [] => pure ()
  | (src, dst) :: rest => do
    emit (BuildEvent.ensureSymlink src dst)
    if (env.ensureSymlinkErr src).isSome then abortOk
    else ensureCommonSymlinks env rest

/-- The `Release` constant. -/
def release : String := "74"

/-- Phase 0 and phase 1 of `build` in `src/main.go`: configuration
decode, common directories and symlinks, then one job submission per
discovered content source plus the singleton asset/metadata jobs —
everything up to (not including) the `c.Wait()` barrier. -/
def phase01M (env : BuildEnv) (sourceDir targetDir : String) : EvM Unit := do
  match env.decodeErr with
  | some e => abortErr e
  | none => pure ()
  let versionedAssetsDir := targetDir ++ "/assets/" ++ release
  ensureCommonDirs env
    [targetDir ++ "/articles", targetDir ++ "/fragments", targetDir ++ "/passages",
     targetDir ++ "/photos", tempDir, versionedAssetsDir]
  ensureCommonSymlinks env
    [(sourceDir ++ "/content/fonts", targetDir ++ "/fonts"),
     (sourceDir ++ "/content/images", targetDir ++ "/images"),
     (sourceDir ++ "/content/photographs", targetDir ++ "/photographs")]
  let articleSources ← readSources env (sourceDir ++ "/content/articles")
      (sourceDir ++ "/content/drafts")
  emitAll (articleSources.map (fun s => BuildEvent.enqueue (JobTag.article s)))
  let fragmentSources ← readSources env (sourceDir ++ "/content/fragments")
      (sourceDir ++ "/content/fragments-drafts")
  emitAll (fragmentSources.map (fun s => BuildEvent.enqueue (JobTag.fragment s)))
  emit (BuildEvent.enqueue JobTag.javascripts)
  match env.pagesMeta with
  | Except.error e => abortErr e
  | Except.ok _metaChanged => pure ()
  let pageSources ← readDirE env (sourceDir ++ "/pages")
  emitAll (pageSources.map (fun s => BuildEvent.enqueue (JobTag.page s)))
  let passageSources ← readSources env (sourceDir ++ "/content/passages")
      (sourceDir ++ "/content/passages-drafts")
  emitAll (passageSources.map (fun s => BuildEvent.enqueue (JobTag.passage s)))
  emit (BuildEvent.enqueue JobTag.photosMeta)
  emit (BuildEvent.enqueue JobTag.robotsTxt)
  let sequenceSources ← readSources env (sourceDir ++ "/content/sequences")
      (sourceDir ++ "/content/sequences-drafts")
  emitAll (sequenceSources.map (fun s => BuildEvent.enqueue (JobTag.sequenceMeta s)))
  emit (BuildEvent.enqueue JobTag.stylesheets)
  let talkSources ← readSources env (sourceDir ++ "/content/talks")
      (sourceDir ++ "/content/talks-drafts")
  emitAll (talkSources.map (fun s => BuildEvent.enqueue (JobTag.talk s)))

/-- The two jobs submitted per sequence photo in phase 2. -/
def sequencePhotoJobs (slug : String) (photos : List Photo) : List BuildEvent :=
  (photos.map (fun p =>
    [BuildEvent.enqueue (JobTag.sequencePage slug p.slug),
     BuildEvent.enqueue (JobTag.sequenceFetchResize slug p.slug)])).flatten

/-- The sequences section of phase 2: per sequence, two `EnsureDir`
calls (whose errors *are* returned here) and the per-photo jobs.  The
Go code iterates a map in unspecified order; the environment fixes an
order. -/
def sequencesPhase2 (env : BuildEnv) (sourceDir targetDir : String) :
    List (String × List Photo) → EvM Unit
  | [] => pure ()
  | (slug, photos) :: rest => do
    emit (BuildEvent.ensureDir (targetDir ++ "/sequences/" ++ slug))
    match env.ensureDirErr (targetDir ++ "/sequences/" ++ slug) with
    | some e => abortErr e
    | none => pure ()
    emit (BuildEvent.ensureDir (sourceDir ++ "/content/photographs/sequences/" ++ slug))
    match env.ensureDirErr (sourceDir ++ "/content/photographs/sequences/" ++ slug) with
    | some e => abortErr e
    | none => pure ()
    emitAll (sequencePhotoJobs slug photos)
    sequencesPhase2 env sourceDir targetDir rest

/-- Phase 2 of `build`: the normalization sorts followed by submission
of every aggregate job (indices, feeds, home, photo and sequence
jobs). -/
def phase2M (env : BuildEnv) (sourceDir targetDir : String) : EvM Unit := do
  emit BuildEvent.sortAll
  emitAll
    [BuildEvent.enqueue JobTag.articlesIndex,
     BuildEvent.enqueue JobTag.articlesFeedAll,
     BuildEvent.enqueue JobTag.articlesFeedPostgres,
     BuildEvent.enqueue JobTag.fragmentsIndex,
     BuildEvent.enqueue JobTag.fragmentsFeed,
     BuildEvent.enqueue JobTag.homePage,
     BuildEvent.enqueue JobTag.passagesIndex,
     BuildEvent.enqueue JobTag.photoIndex]
  emitAll (env.photos.map (fun p => BuildEvent.enqueue (JobTag.photoFetchResize p.slug)))
  sequencesPhase2 env sourceDir targetDir env.sequences

/-- The whole `build` function: phases 0/1, then the barrier — on a
failed `c.Wait()` the source does `return nil` — then phase 2. -/
def buildM (env : BuildEnv) (sourceDir targetDir : String) : EvM Unit :=
  EvM.bind (phase01M env sourceDir targetDir) (fun _ =>
    EvM.bind (emit BuildEvent.wait) (fun _ =>
      EvM.bind (if !env.waitOk then abortOk else pure ()) (fun _ =>
        phase2M env sourceDir targetDir)))

/-- Runs `build`: the event trace plus the value `build` returns to the
framework. -/
def buildRun (env : BuildEnv) (sourceDir targetDir : String) :
    List BuildEvent × Except String Unit :=
  match buildM env sourceDir targetDir with
  | ⟨evts, Except.error o⟩ => (evts, o)
  | ⟨evts, Except.ok _⟩ => (evts, Except.ok ())

/-- Events allowed before the phase-1 barrier: not the barrier, and not
a phase-2 aggregate submission. -/
def prePhase1Ok (e : BuildEvent) : Bool := !e.isAggregateEnqueue && !e.isWaitEv

/-! ## Concrete sample inputs used by counterexamples and witnesses -/

/-- Two articles sharing one publication instant (a timestamp tie). -/
def tieArticleA : Article :=
  { location := "Calgary", publishedAt := some ⟨2020, 5⟩, title := "tie a" }

/-- Second article of the timestamp tie. -/
def tieArticleB : Article :=
  { location := "Berlin", publishedAt := some ⟨2020, 5⟩, title := "tie b" }

/-- A 2021 article for the grouping witness. -/
def yr2021Article : Article :=
  { location := "Calgary", publishedAt := some ⟨2021, 40⟩, title := "from 2021" }

/-- A 2020 article for the grouping witness. -/
def yr2020Article : Article :=
  { location := "Calgary", publishedAt := some ⟨2020, 11⟩, title := "from 2020" }

/-- A renderer environment for an unchanged, valid article in an
unforced context. -/
def unchangedArticleEnv : RenderArticleEnv :=
  { parse := Except.ok
      ({ location := "Calgary", title := "An article", publishedAt := some ⟨2020, 1⟩ },
       "body text", false),
    forced := false, md := fun s => s, toc := fun _ => Except.ok "",
    hookImage := none, twitterImage := none, maceErr := none }

/-- A renderer environment for an unchanged, valid fragment in an
unforced context. -/
def unchangedFragmentEnv : RenderFragmentEnv :=
  { parse := Except.ok
      ({ title := "A fragment", publishedAt := some ⟨2019, 2⟩ }, "body text", false),
    forced := false, md := fun s => s, twitterImage := none, maceErr := none }

/-- A renderer environment for an unchanged, valid passage in an
unforced context. -/
def unchangedPassageEnv : RenderPassageEnv :=
  { parse := Except.ok
      ({ title := "A passage", publishedAt := some ⟨2019, 7⟩ }, "body text", false),
    forced := false, md := fun s => s, maceErr := none }

/-- A renderer environment for an unchanged talk in an unforced
context. -/
def unchangedTalkEnv : RenderTalkEnv :=
  { changed := false, forced := false,
    talkRender := Except.ok { slug := "talk-1", publishedAt := some ⟨2018, 4⟩, title := "Talk" },
    maceErr := none }

/-- A photo used by the fetch-and-resize witnesses. -/
def samplePhoto : Photo :=
  { slug := "p-1", originalImageURL := "https://example.com/p-1.jpg",
    occurredAt := some ⟨2019, 3⟩ }

/-- A fetch environment whose marker file already exists (and whose
other collaborators would all fail, showing they are never consulted). -/
def markerEnv : FetchResizeEnv :=
  { fileExistsAt := fun _ => true, fetchErr := some "network down",
    resizeErr := fun _ => some "gm failed", markerErr := some "disk full" }

/-- A fetch environment with no marker and all steps succeeding. -/
def fetchOkEnv : FetchResizeEnv :=
  { fileExistsAt := fun _ => false, fetchErr := none,
    resizeErr := fun _ => none, markerErr := none }

/-- A fetch environment where the 1500-pixel resize fails. -/
def resizeFailEnv : FetchResizeEnv :=
  { fileExistsAt := fun _ => false, fetchErr := none,
    resizeErr := fun w => if w = 1500 then some "gm crashed" else none, markerErr := none }

/-- Two photos for the home-page selection witness. -/
def poolPhotoA : Photo := { slug := "pool-a", occurredAt := some ⟨2021, 2⟩ }

/-- Second photo for the home-page selection witness. -/
def poolPhotoB : Photo :=
  { slug := "pool-b", occurredAt := some ⟨2020, 6⟩, keepInHomeRotation := true }

/-- A build environment where everything succeeds but the phase-1
barrier reports failure. -/
def waitFailEnv : BuildEnv :=
  { decodeErr := none, drafts := false, ensureDirErr := fun _ => none,
    ensureSymlinkErr := fun _ => none, readDir := fun _ => Except.ok [],
    pagesMeta := Except.ok false, waitOk := false, photos := [], sequences := [] }

/-- A build environment where the first `mfile.EnsureDir` of the common
directories fails. -/
def dirFailEnv : BuildEnv :=
  { decodeErr := none, drafts := false,
    ensureDirErr := fun d => if d = "./pub/articles" then some "permission denied" else none,
    ensureSymlinkErr := fun _ => none, readDir := fun _ => Except.ok [],
    pagesMeta := Except.ok false, waitOk := true, photos := [], sequences := [] }

/-- A build environment where the first `mfile.EnsureSymlink` fails. -/
def symlinkFailEnv : BuildEnv :=
  { dirFailEnv with
    ensureDirErr := fun _ => none,
    ensureSymlinkErr := fun s =>
      if s = "./src/content/fonts" then some "operation not permitted" else none }

/-! ## Helper lemmas -/

/-- Negation of the strict instant order is the reflexive order the
other way around. -/
theorem beforeB_false_iff (t u : GoTime) :
    GoTime.beforeB t u = false ↔ GoTime.leB u t = true := by
  simp only [GoTime.beforeB, GoTime.leB, Bool.or_eq_false_iff, Bool.or_eq_true,
    Bool.and_eq_false_iff, Bool.and_eq_true, beq_iff_eq, beq_eq_false_iff_ne,
    ne_eq, decide_eq_true_eq, decide_eq_false_iff_not]
  omega

/-- Any output within the `sort.Slice` contract for a descending-time
comparator is pairwise descending on the key. -/
theorem goSortSlice_pairwise_le {α : Type} (key : α → GoTime) (inp out : List α)
    (h : goSortSlice (fun x y => GoTime.beforeB (key y) (key x)) inp out) :
    out.Pairwise (fun x y => GoTime.leB (key y) (key x) = true) := by
  refine h.2.imp ?_
  intro x y hxy
  exact (beforeB_false_iff (key x) (key y)).mp hxy

/-- Concatenating the groups produced by `groupGo` restores the open
group's articles followed by the remaining input. -/
theorem groupGo_flatten (cur : ArticleYear) (l : List Article) :
    ((groupGo cur l).map (fun g => g.articles)).flatten = cur.articles ++ l := by
  induction l generalizing cur with
  | nil => simp [groupGo]
  | cons a rest ih =>
    by_cases h : (Article.pub a).year = cur.year
    · simp [groupGo, h, ih]
    · simp [groupGo, h, ih]

/-- `groupGo` returns a nonempty list whose head carries the open
group's year. -/
theorem groupGo_head_year (cur : ArticleYear) (l : List Article) :
    ∃ g gs, groupGo cur l = g :: gs ∧ g.year = cur.year := by
  induction l generalizing cur with
  | nil => exact ⟨cur, [], rfl, rfl⟩
  | cons a rest ih =>
    by_cases h : (Article.pub a).year = cur.year
    · obtain ⟨g, gs, hgg, hyr⟩ := ih { cur with articles := cur.articles ++ [a] }
      exact ⟨g, gs, by simp [groupGo, h, hgg], hyr⟩
    · exact ⟨cur, groupGo ⟨(Article.pub a).year, [a]⟩ rest, by simp [groupGo, h], rfl⟩

/-- Invariants of `groupGo`: adjacent produced groups have different
years, every group is nonempty, and every member of a group was
published in that group's year. -/
theorem groupGo_invariants (cur : ArticleYear) (l : List Article)
    (hne : cur.articles ≠ [])
    (hyr : ∀ a ∈ cur.articles, (Article.pub a).year = cur.year) :
    List.Chain' (fun g h => g.year ≠ h.year) (groupGo cur l)
  ∧ ∀ g ∈ groupGo cur l, g.articles ≠ [] ∧ ∀ a ∈ g.articles, (Article.pub a).year = g.year := by
  induction l generalizing cur with
  | nil =>
    refine ⟨by simp [groupGo], ?_⟩
    intro g hg
    simp only [groupGo, List.mem_singleton] at hg
    subst hg
    exact ⟨hne, hyr⟩
  | cons a rest ih =>
    by_cases h : (Article.pub a).year = cur.year
    · have hext : ∀ b ∈ cur.articles ++ [a], (Article.pub b).year = cur.year := by
        intro b hb
        rcases List.mem_append.mp hb with hb | hb
        · exact hyr b hb
        · simp only [List.mem_singleton] at hb; subst hb; exact h
      have := ih { cur with articles := cur.articles ++ [a] } (by simp) hext
      simpa [groupGo, h] using this
    · have hnew := ih ⟨(Article.pub a).year, [a]⟩ (by simp) (by simp)
      obtain ⟨g, gs, hgg, hgy⟩ := groupGo_head_year ⟨(Article.pub a).year, [a]⟩ rest
      refine ⟨?_, ?_⟩
      · rw [show groupGo cur (a :: rest) = cur :: groupGo ⟨(Article.pub a).year, [a]⟩ rest
            from by simp [groupGo, h]]
        rw [List.chain'_cons']
        refine ⟨?_, hnew.1⟩
        intro y hy
        rw [hgg] at hy
        simp only [List.head?_cons, Option.mem_def, Option.some.injEq] at hy
        subst hy
        rw [hgy]
        exact fun hc => h hc.symm
      · intro g' hg'
        rw [show groupGo cur (a :: rest) = cur :: groupGo ⟨(Article.pub a).year, [a]⟩ rest
            from by simp [groupGo, h]] at hg'
        rcases List.mem_cons.mp hg' with hg' | hg'
        · subst hg'; exact ⟨hne, hyr⟩
        · exact hnew.2 g' hg'

/-! ## Claim theorems -/

/-- C5 (counterexample): the two tie articles are already sorted by
descending publish time, yet the reversed list also satisfies the
`sort.Slice` contract embedded by `sortArticlesRel` — so the sort is
not guaranteed stable and sorting an already-sorted collection need not
return an identical sequence. -/
theorem sortArticles_ties_reorder :
    sortArticlesRel [tieArticleA, tieArticleB] [tieArticleB, tieArticleA]
  ∧ List.Pairwise (fun x y => GoTime.leB y.pub x.pub = true) [tieArticleA, tieArticleB]
  ∧ [tieArticleB, tieArticleA] ≠ [tieArticleA, tieArticleB] := by
  refine ⟨⟨List.Perm.swap _ _ _, ?_⟩, ?_, ?_⟩ <;> decide

/-- C5 (amended): every output of the normalization sorts (that is,
every output permitted by the `sort.Slice` contract they invoke) is
ordered by descending publish/occurrence timestamp; tie order is
unspecified. -/
theorem sorts_order_descending :
    (∀ inp out, sortArticlesRel inp out →
      out.Pairwise (fun x y => GoTime.leB y.pub x.pub = true))
  ∧ (∀ inp out, sortFragmentsRel inp out →
      out.Pairwise (fun x y => GoTime.leB y.pub x.pub = true))
  ∧ (∀ inp out, sortPassagesRel inp out →
      out.Pairwise (fun x y => GoTime.leB y.pub x.pub = true))
  ∧ (∀ inp out, sortPhotosRel inp out →
      out.Pairwise (fun x y => GoTime.leB y.occ x.occ = true))
  ∧ (∀ inp out, sortTalksRel inp out →
      out.Pairwise (fun x y => GoTime.leB y.pub x.pub = true)) :=
  ⟨fun inp out h => goSortSlice_pairwise_le Article.pub inp out h,
   fun inp out h => goSortSlice_pairwise_le Fragment.pub inp out h,
   fun inp out h => goSortSlice_pairwise_le Passage.pub inp out h,
   fun inp out h => goSortSlice_pairwise_le Photo.occ inp out h,
   fun inp out h => goSortSlice_pairwise_le Talk.pub inp out h⟩

/-- C5 (witness): the descending-order theorem applied to a concrete
two-article sort. -/
theorem sorts_order_descending_witness :
    sortArticlesRel [yr2020Article, yr2021Article] [yr2021Article, yr2020Article]
  ∧ List.Pairwise (fun x y => GoTime.leB y.pub x.pub = true)
      [yr2021Article, yr2020Article] := by
  have hrel : sortArticlesRel [yr2020Article, yr2021Article] [yr2021Article, yr2020Article] :=
    ⟨List.Perm.swap _ _ _, by decide⟩
  exact ⟨hrel, sorts_order_descending.1 _ _ hrel⟩

/-- C6: `groupArticlesByYear` partitions its input: concatenating the
groups' articles in order reproduces the input exactly, adjacent groups
carry different years, and each group is a nonempty run of articles of
exactly that group's year — i.e. a new group opens exactly when the
year changes. -/
theorem groupArticlesByYear_partition : ∀ l : List Article,
    ((groupArticlesByYear l).map (fun g => g.articles)).flatten = l
  ∧ List.Chain' (fun g h => g.year ≠ h.year) (groupArticlesByYear l)
  ∧ ∀ g ∈ groupArticlesByYear l,
      g.articles ≠ [] ∧ ∀ a ∈ g.articles, (Article.pub a).year = g.year := by
  intro l
  cases l with
  | nil => simp [groupArticlesByYear]
  | cons a rest =>
    have h1 := groupGo_flatten ⟨(Article.pub a).year, [a]⟩ rest
    have h2 := groupGo_invariants ⟨(Article.pub a).year, [a]⟩ rest (by simp) (by simp)
    exact ⟨by simpa [groupArticlesByYear] using h1,
           by simpa [groupArticlesByYear] using h2.1,
           by simpa [groupArticlesByYear] using h2.2⟩

/-- C6 (witness): the partition theorem applied to a concrete
two-article, two-year input. -/
theorem groupArticlesByYear_partition_witness :
    ((groupArticlesByYear [yr2021Article, yr2020Article]).map (fun g => g.articles)).flatten
      = [yr2021Article, yr2020Article]
  ∧ List.Chain' (fun g h => g.year ≠ h.year)
      (groupArticlesByYear [yr2021Article, yr2020Article]) :=
  ⟨(groupArticlesByYear_partition [yr2021Article, yr2020Article]).1,
   (groupArticlesByYear_partition [yr2021Article, yr2020Article]).2.1⟩

/-- C2 (counterexample): with an unchanged valid source and an unforced
context, `renderArticle` reports executed = true — not executed = false
as claimed (it does write nothing). -/
theorem renderArticle_skip_reports_executed :
    (renderArticle unchangedArticleEnv "./src" "./pub" "./src/content/articles/a-1.md").2.1
      = true
  ∧ (renderArticle unchangedArticleEnv "./src" "./pub" "./src/content/articles/a-1.md").2.2.2
      = [] := by
  constructor <;> rfl

/-- C2 (amended): when the source is unchanged and the context is not
forced, every renderer returns immediately after validation and
performs no filesystem write; `renderTalk` reports executed = false,
while `renderArticle`, `renderFragment` and `renderPassage` report
executed = true. -/
theorem renderers_skip_no_writes :
    (∀ (env : RenderArticleEnv) (sd td src : String) (a : Article) (data : String),
      env.parse = Except.ok (a, data, false) → env.forced = false →
      (renderArticle env sd td src).2.1 = true ∧ (renderArticle env sd td src).2.2.2 = [])
  ∧ (∀ (env : RenderFragmentEnv) (sd td src : String) (f : Fragment) (data : String),
      env.parse = Except.ok (f, data, false) → env.forced = false →
      (renderFragment env sd td src).2.1 = true ∧ (renderFragment env sd td src).2.2.2 = [])
  ∧ (∀ (env : RenderPassageEnv) (td src : String) (p : Passage) (data : String),
      env.parse = Except.ok (p, data, false) → env.forced = false →
      (renderPassage env td src).2.1 = true ∧ (renderPassage env td src).2.2.2 = [])
  ∧ (∀ (env : RenderTalkEnv) (td src : String),
      env.changed = false → env.forced = false →
      renderTalk env td src = (none, false, none, [])) := by
  refine ⟨?_, ?_, ?_, ?_⟩
  · intro env sd td src a data hp hf
    simp only [renderArticle, hp, hf]
    cases a.validate src <;> simp
  · intro env sd td src f data hp hf
    simp only [renderFragment, hp, hf]
    cases f.validate src <;> simp
  · intro env td src p data hp hf
    simp only [renderPassage, hp, hf]
    cases p.validate src <;> simp <;> split <;> simp
  · intro env td src hc hf
    simp [renderTalk, hc, hf]

/-- C2 (witness): the amended skip behaviour at concrete unchanged
sources for all four renderers. -/
theorem renderers_skip_no_writes_witness :
    ((renderArticle unchangedArticleEnv "./src" "./pub" "./src/content/articles/a-2.md").2.1
        = true
      ∧ (renderArticle unchangedArticleEnv "./src" "./pub" "./src/content/articles/a-2.md").2.2.2
        = [])
  ∧ ((renderFragment unchangedFragmentEnv "./src" "./pub" "./src/content/fragments/f-1.md").2.1
        = true
      ∧ (renderFragment unchangedFragmentEnv "./src" "./pub" "./src/content/fragments/f-1.md").2.2.2
        = [])
  ∧ ((renderPassage unchangedPassageEnv "./pub" "./src/content/passages/001-first.md").2.1
        = true
      ∧ (renderPassage unchangedPassageEnv "./pub" "./src/content/passages/001-first.md").2.2.2
        = [])
  ∧ renderTalk unchangedTalkEnv "./pub" "./src/content/talks/t-1.md"
      = (none, false, none, []) :=
  ⟨renderers_skip_no_writes.1 unchangedArticleEnv "./src" "./pub"
      "./src/content/articles/a-2.md" _ _ rfl rfl,
   renderers_skip_no_writes.2.1 unchangedFragmentEnv "./src" "./pub"
      "./src/content/fragments/f-1.md" _ _ rfl rfl,
   renderers_skip_no_writes.2.2.1 unchangedPassageEnv "./pub"
      "./src/content/passages/001-first.md" _ _ rfl rfl,
   renderers_skip_no_writes.2.2.2 unchangedTalkEnv "./pub"
      "./src/content/talks/t-1.md" rfl rfl⟩

/-- C7: whenever the photo's marker file exists, `fetchAndResizePhoto`
returns executed = false with no error and an empty effect trace — no
fetch, no resize invocation, no file write — whatever the rest of the
environment (including absent local outputs) looks like. -/
theorem fetchAndResizePhoto_marker_skip :
    ∀ (env : FetchResizeEnv) (dir : String) (photo : Photo),
      env.fileExistsAt (fapMarkerPath dir photo) = true →
      fetchAndResizePhoto env dir photo = (false, none, []) := by
  intro env dir photo h
  simp [fetchAndResizePhoto, h]

/-- C7 (witness): the marker-skip theorem at a concrete photo whose
environment would fail every fetch and resize were they attempted. -/
theorem fetchAndResizePhoto_marker_skip_witness :
    markerEnv.fileExistsAt (fapMarkerPath "./content/photographs" samplePhoto) = true
  ∧ fetchAndResizePhoto markerEnv "./content/photographs" samplePhoto
      = (false, none, []) :=
  ⟨rfl, fetchAndResizePhoto_marker_skip markerEnv "./content/photographs" samplePhoto rfl⟩

/-- C8: evaluation of the phase-1 job bodies' synchronization traces:
in `src/main.go` the appends to the shared articles, fragments,
passages and talks slices happen with no mutex held; in the
`src/unnamed/part_000` revision the article append is mutex-protected
but the passage and talk appends still are not. -/
theorem aggregate_appends_unprotected :
    appendsProtected (mainArticleJobOps true) = false
  ∧ appendsProtected (mainFragmentJobOps true) = false
  ∧ appendsProtected (mainPassageJobOps true) = false
  ∧ appendsProtected (mainTalkJobOps true) = false
  ∧ appendsProtected (part000ArticleJobOps true) = true
  ∧ appendsProtected (part000PassageJobOps true) = false
  ∧ appendsProtected (part000TalkJobOps true) = false := by
  decide

/-- C9: without a marker, with the fetch succeeding, the job performs —
in order — one fetch, exactly one `gm convert` per configured target
(widths 333, 667, 1500, 3000, each at quality 85, each with its own
output file), and creates the marker file last; and if any of the four
resizes fails, the marker file is never created. -/
theorem fetchAndResizePhoto_success_path :
    (∀ (env : FetchResizeEnv) (dir : String) (photo : Photo),
      env.fileExistsAt (fapMarkerPath dir photo) = false →
      env.fetchErr = none →
      (∀ w, env.resizeErr w = none) →
      env.markerErr = none →
      fetchAndResizePhoto env dir photo =
        (true, none,
         [Effect.fetchFile photo.originalImageURL
            (pathJoin tempDir (photo.slug ++ "_original.jpg")),
          Effect.gmConvert (pathJoin tempDir (photo.slug ++ "_original.jpg"))
            (fapSourceNoExt dir photo ++ ".jpg") 333 85,
          Effect.gmConvert (pathJoin tempDir (photo.slug ++ "_original.jpg"))
            (fapSourceNoExt dir photo ++ "@2x.jpg") 667 85,
          Effect.gmConvert (pathJoin tempDir (photo.slug ++ "_original.jpg"))
            (fapSourceNoExt dir photo ++ "_large.jpg") 1500 85,
          Effect.gmConvert (pathJoin tempDir (photo.slug ++ "_original.jpg"))
            (fapSourceNoExt dir photo ++ "_large@2x.jpg") 3000 85,
          Effect.createFile (fapMarkerPath dir photo)]))
  ∧ (∀ (env : FetchResizeEnv) (dir : String) (photo : Photo),
      env.fileExistsAt (fapMarkerPath dir photo) = false →
      ((env.resizeErr 333).isSome ∨ (env.resizeErr 667).isSome ∨
       (env.resizeErr 1500).isSome ∨ (env.resizeErr 3000).isSome) →
      Effect.createFile (fapMarkerPath dir photo) ∉
        (fetchAndResizePhoto env dir photo).2.2) := by
  constructor
  · intro env dir photo hm hf hr hmk
    simp [fetchAndResizePhoto, hm, hf, hmk, runResizes, resizeImage, resizeMatrix,
      hr 333, hr 667, hr 1500, hr 3000]
  · intro env dir photo hm hfail
    simp only [fetchAndResizePhoto, hm, Bool.false_eq_true, if_false]
    cases hf : env.fetchErr with
    | some e => simp
    | none =>
      simp only [resizeMatrix, runResizes, resizeImage]
      cases h333 : env.resizeErr 333 with
      | some e => simp
      | none =>
        cases h667 : env.resizeErr 667 with
        | some e => simp
        | none =>
          cases h1500 : env.resizeErr 1500 with
          | some e => simp
          | none =>
            cases h3000 : env.resizeErr 3000 with
            | some e => simp
            | none =>
              rw [h333, h667, h1500, h3000] at hfail
              simp at hfail

/-- C9 (witness): the success path at a concrete photo, and the
no-marker-on-failure part at a concrete environment whose 1500-pixel
resize fails. -/
theorem fetchAndResizePhoto_success_path_witness :
    fetchAndResizePhoto fetchOkEnv "./content/photographs" samplePhoto =
      (true, none,
       [Effect.fetchFile samplePhoto.originalImageURL
          (pathJoin tempDir (samplePhoto.slug ++ "_original.jpg")),
        Effect.gmConvert (pathJoin tempDir (samplePhoto.slug ++ "_original.jpg"))
          (fapSourceNoExt "./content/photographs" samplePhoto ++ ".jpg") 333 85,
        Effect.gmConvert (pathJoin tempDir (samplePhoto.slug ++ "_original.jpg"))
          (fapSourceNoExt "./content/photographs" samplePhoto ++ "@2x.jpg") 667 85,
        Effect.gmConvert (pathJoin tempDir (samplePhoto.slug ++ "_original.jpg"))
          (fapSourceNoExt "./content/photographs" samplePhoto ++ "_large.jpg") 1500 85,
        Effect.gmConvert (pathJoin tempDir (samplePhoto.slug ++ "_original.jpg"))
          (fapSourceNoExt "./content/photographs" samplePhoto ++ "_large@2x.jpg") 3000 85,
        Effect.createFile (fapMarkerPath "./content/photographs" samplePhoto)])
  ∧ Effect.createFile (fapMarkerPath "./content/photographs" samplePhoto) ∉
      (fetchAndResizePhoto resizeFailEnv "./content/photographs" samplePhoto).2.2 :=
  ⟨fetchAndResizePhoto_success_path.1 fetchOkEnv "./content/photographs" samplePhoto
      rfl rfl (fun _ => rfl) rfl,
   fetchAndResizePhoto_success_path.2 resizeFailEnv "./content/photographs" samplePhoto
      rfl (Or.inr (Or.inr (Or.inl (by decide))))⟩

/-- The candidate pool of `selectRandomPhoto` in closed form: the first
`min(20, length)` photos followed by the `KeepInHomeRotation` photos
among the later ones, the final list element excluded. -/
theorem randomPool_eq (photos : List Photo) :
    randomPool photos =
      photos.take (min 20 photos.length) ++
      ((photos.drop (min 20 photos.length)).dropLast).filter
        (fun p => p.keepInHomeRotation) := by
  unfold randomPool
  by_cases h : photos.length < 20
  · have hm : min 20 photos.length = photos.length := by omega
    have hngt : ¬ (photos.length > photos.length) := lt_irrefl _
    simp only [if_pos h, if_neg hngt, hm]
    simp [List.drop_length, List.take_length]
  · have hm : min 20 photos.length = 20 := by omega
    simp only [if_neg h, hm]
    by_cases h2 : photos.length > 20
    · rw [if_pos h2]
    · have hdrop : photos.drop 20 = [] := List.drop_eq_nil_of_le (by omega)
      rw [if_neg h2, hdrop]
      simp

/-- C10: `selectRandomPhoto` returns none exactly on the empty list;
any photo it returns is a member of the input; for a nonempty input the
candidate pool is nonempty (so `rand.Intn` cannot panic); and the pool
is exactly the first `min(20, length)` photos plus the later
`KeepInHomeRotation` photos, the list's last element excluded from the
latter. -/
theorem selectRandomPhoto_spec :
    ∀ (r : Nat) (photos : List Photo),
      (selectRandomPhoto r photos = none ↔ photos = [])
    ∧ (∀ p, selectRandomPhoto r photos = some p → p ∈ photos)
    ∧ (photos ≠ [] → 0 < (randomPool photos).length)
    ∧ randomPool photos =
        photos.take (min 20 photos.length) ++
        ((photos.drop (min 20 photos.length)).dropLast).filter
          (fun p => p.keepInHomeRotation) := by
  intro r photos
  have hpool := randomPool_eq photos
  have hlen : photos ≠ [] → 0 < (randomPool photos).length := by
    intro hne
    rw [hpool, List.length_append, List.length_take]
    have : 0 < photos.length := List.length_pos.mpr hne
    omega
  refine ⟨⟨?_, ?_⟩, ?_, hlen, hpool⟩
  · intro h
    by_contra hne
    have hp := hlen hne
    have hlt : ¬ photos.length < 1 := by
      have : 0 < photos.length := List.length_pos.mpr hne
      omega
    unfold selectRandomPhoto at h
    rw [if_neg hlt] at h
    rw [List.get?_eq_none] at h
    have := Nat.mod_lt r hp
    omega
  · intro h; subst h; rfl
  · intro p hp
    unfold selectRandomPhoto at hp
    by_cases hne : photos.length < 1
    · rw [if_pos hne] at hp; cases hp
    · rw [if_neg hne] at hp
      have hmem : p ∈ randomPool photos := List.get?_mem hp
      rw [hpool] at hmem
      rcases List.mem_append.mp hmem with hm | hm
      · exact List.take_subset _ _ hm
      · have h1 : p ∈ (photos.drop (min 20 photos.length)).dropLast :=
          List.mem_of_mem_filter hm
        have h2 : p ∈ photos.drop (min 20 photos.length) :=
          List.dropLast_subset _ h1
        exact List.drop_subset _ _ h2

/-- C10 (witness): the selection theorem at a concrete two-photo list
and random draw. -/
theorem selectRandomPhoto_spec_witness :
    0 < (randomPool [poolPhotoA, poolPhotoB]).length
  ∧ (selectRandomPhoto 7 [poolPhotoA, poolPhotoB] = none ↔
      ([poolPhotoA, poolPhotoB] : List Photo) = [])
  ∧ poolPhotoB ∈ ([poolPhotoA, poolPhotoB] : List Photo) :=
  ⟨(selectRandomPhoto_spec 7 [poolPhotoA, poolPhotoB]).2.2.1 (by simp),
   (selectRandomPhoto_spec 7 [poolPhotoA, poolPhotoB]).1,
   (selectRandomPhoto_spec 7 [poolPhotoA, poolPhotoB]).2.1 poolPhotoB rfl⟩

/-! ## Build-driver lemmas -/

/-- Monadic bind on `EvM` is `EvM.bind`. -/
theorem bind_events_def (x : EvM α) (k : α → EvM β) : x >>= k = EvM.bind x k := rfl

/-- A predicate holding on all events of both computations holds on all
events of their sequencing. -/
theorem evmAll_bind {p : BuildEvent → Bool} {x : EvM α} {k : α → EvM β}
    (hx : x.events.all p = true) (hk : ∀ a, ((k a).events.all p) = true) :
    ((x >>= k).events.all p) = true := by
  rw [bind_events_def]
  obtain ⟨evts, res⟩ := x
  cases res with
  | error o => simpa [EvM.bind] using hx
  | ok a =>
    simp only [EvM.bind, List.all_append, Bool.and_eq_true]
    exact ⟨hx, hk a⟩

/-- Pure computations emit no events. -/
theorem evmAll_pure {p : BuildEvent → Bool} (a : α) :
    (((pure a : EvM α)).events.all p) = true := rfl

/-- `emit` satisfies an all-events predicate when the event does. -/
theorem evmAll_emit {p : BuildEvent → Bool} {e : BuildEvent} (h : p e = true) :
    ((emit e).events.all p) = true := by simp [emit, h]

/-- `emitAll` satisfies an all-events predicate when the list does. -/
theorem evmAll_emitAll {p : BuildEvent → Bool} {es : List BuildEvent}
    (h : es.all p = true) : ((emitAll es).events.all p) = true := h

/-- Early `return nil` emits no events. -/
theorem evmAll_abortOk {p : BuildEvent → Bool} : ((abortOk).events.all p) = true := rfl

/-- Early `return err` emits no events. -/
theorem evmAll_abortErr {p : BuildEvent → Bool} (e : String) :
    ((abortErr e).events.all p) = true := rfl

/-- Directory listings emit no events. -/
theorem evmAll_readDirE {p : BuildEvent → Bool} {env : BuildEnv} {dir : String} :
    ((readDirE env dir).events.all p) = true := by
  unfold readDirE
  split <;> rfl

/-- Source discovery emits no events. -/
theorem evmAll_readSources {p : BuildEvent → Bool} {env : BuildEnv} {d dd : String} :
    ((readSources env d dd).events.all p) = true := by
  unfold readSources
  apply evmAll_bind evmAll_readDirE
  intro a
  split
  · exact evmAll_bind evmAll_readDirE (fun _ => evmAll_pure _)
  · exact evmAll_pure _

/-- All events of the common-directories loop are `ensureDir` events. -/
theorem evmAll_ensureCommonDirs {p : BuildEvent → Bool} (env : BuildEnv)
    (dirs : List String) (h : ∀ d, p (BuildEvent.ensureDir d) = true) :
    ((ensureCommonDirs env dirs).events.all p) = true := by
  induction dirs with
  | nil => rfl
  | cons d rest ih =>
    unfold ensureCommonDirs
    apply evmAll_bind (evmAll_emit (h d))
    intro _
    split
    · exact evmAll_abortOk
    · exact ih

/-- All events of the symlinks loop are `ensureSymlink` events. -/
theorem evmAll_ensureCommonSymlinks {p : BuildEvent → Bool} (env : BuildEnv)
    (links : List (String × String))
    (h : ∀ s t, p (BuildEvent.ensureSymlink s t) = true) :
    ((ensureCommonSymlinks env links).events.all p) = true := by
  induction links with
  | nil => rfl
  | cons l rest ih =>
    obtain ⟨s, t⟩ := l
    unfold ensureCommonSymlinks
    apply evmAll_bind (evmAll_emit (h s t))
    intro _
    split
    · exact evmAll_abortOk
    · exact ih

/-- A batch of enqueue events mapped over discovered sources satisfies
a predicate that holds on every such enqueue. -/
theorem evmAll_enqueues {p : BuildEvent → Bool} (f : String → JobTag) (l : List String)
    (h : ∀ s, p (BuildEvent.enqueue (f s)) = true) :
    ((emitAll (l.map (fun s => BuildEvent.enqueue (f s)))).events.all p) = true := by
  refine evmAll_emitAll ?_
  refine List.all_eq_true.mpr (fun e he => ?_)
  rcases List.mem_map.mp he with ⟨s, _, rfl⟩
  exact h s

/-- No event of phases 0/1 is the barrier or an aggregate-job
submission. -/
theorem phase01_events_ok (env : BuildEnv) (sd td : String) :
    ((phase01M env sd td).events.all prePhase1Ok) = true := by
  unfold phase01M
  repeat
    first
    | exact evmAll_pure _
    | exact evmAll_abortOk
    | exact evmAll_abortErr _
    | exact evmAll_readDirE
    | exact evmAll_readSources
    | exact evmAll_emit rfl
    | exact evmAll_ensureCommonDirs env _ (fun d => rfl)
    | exact evmAll_ensureCommonSymlinks env _ (fun s t => rfl)
    | exact evmAll_enqueues _ _ (fun s => rfl)
    | apply evmAll_bind
    | intro _
    | split
    | dsimp only

/-- The build trace is the phase-0/1 trace, then — unless phase 0/1
returned early — the barrier, then (only on barrier success) the
phase-2 trace. -/
theorem buildM_events_eq (env : BuildEnv) (sd td : String) :
    (buildM env sd td).events =
      (phase01M env sd td).events ++
      (match (phase01M env sd td).result with
       | Except.error _ => []
       | Except.ok _ =>
         BuildEvent.wait ::
           (if env.waitOk then (phase2M env sd td).events else [])) := by
  unfold buildM
  generalize phase01M env sd td = P
  obtain ⟨evts, res⟩ := P
  cases res with
  | error o => simp [EvM.bind]
  | ok a =>
    cases hw : env.waitOk with
    | false => simp [EvM.bind, emit, abortOk]
    | true => simp [EvM.bind, emit, abortOk]

/-- The build result is the phase-0/1 early result when there is one;
otherwise `return nil` on barrier failure, else the phase-2 result. -/
theorem buildM_result_eq (env : BuildEnv) (sd td : String) :
    (buildM env sd td).result =
      match (phase01M env sd td).result with
      | Except.error o => Except.error o
      | Except.ok _ =>
        if env.waitOk then (phase2M env sd td).result
        else Except.error (Except.ok ()) := by
  unfold buildM
  generalize phase01M env sd td = P
  obtain ⟨evts, res⟩ := P
  cases res with
  | error o => simp [EvM.bind]
  | ok a =>
    cases hw : env.waitOk with
    | false => simp [EvM.bind, emit, abortOk]
    | true => simp [EvM.bind, emit, abortOk]

/-- `buildRun` in terms of `buildM`. -/
theorem buildRun_eq (env : BuildEnv) (sd td : String) :
    buildRun env sd td =
      ((buildM env sd td).events,
       match (buildM env sd td).result with
       | Except.error o => o
       | Except.ok _ => Except.ok ()) := by
  unfold buildRun
  generalize buildM env sd td = B
  obtain ⟨evts, res⟩ := B
  cases res <;> rfl

/-- A `takeWhile` whose predicate holds everywhere keeps the list. -/
theorem takeWhile_all_eq {α : Type} {p : α → Bool} :
    ∀ {l : List α}, (∀ x ∈ l, p x = true) → l.takeWhile p = l
  | [], _ => rfl
  | a :: t, h => by
    have ha := h a (List.mem_cons_self a t)
    have ht := fun x hx => h x (List.mem_cons_of_mem a hx)
    simp [List.takeWhile_cons, ha, takeWhile_all_eq ht]

/-- A `takeWhile` over a good prefix stops exactly at the first bad
element. -/
theorem takeWhile_append_stop {α : Type} {p : α → Bool} {x : α} {l₂ : List α}
    (hx : p x = false) :
    ∀ {l₁ : List α}, (∀ e ∈ l₁, p e = true) → (l₁ ++ x :: l₂).takeWhile p = l₁
  | [], _ => by simp [List.takeWhile_cons, hx]
  | a :: t, h => by
    have ha := h a (List.mem_cons_self a t)
    have ht := fun e he => h e (List.mem_cons_of_mem a he)
    simp [List.takeWhile_cons, ha, takeWhile_append_stop hx ht]

/-- C1: in the build trace, every event preceding the phase-1 barrier
is not the submission of a phase-2 aggregate job: the articles index,
the articles feeds, the fragments index and feed, home, passages index,
photo index, sequence pages and all fetch-and-resize jobs — every job
reading the aggregate collections — are enqueued only after `Wait()`
returns. -/
theorem build_phase2_after_barrier (env : BuildEnv) (sourceDir targetDir : String) :
    (((buildRun env sourceDir targetDir).1.takeWhile (fun e => !e.isWaitEv)).all
      (fun e => !e.isAggregateEnqueue)) = true := by
  have h01 := phase01_events_ok env sourceDir targetDir
  have hall := List.all_eq_true.mp h01
  have hnw : ∀ e ∈ (phase01M env sourceDir targetDir).events, (!e.isWaitEv) = true := by
    intro e he
    have h := hall e he
    simp only [prePhase1Ok, Bool.and_eq_true] at h
    exact h.2
  have hna : ∀ e ∈ (phase01M env sourceDir targetDir).events,
      (!e.isAggregateEnqueue) = true := by
    intro e he
    have h := hall e he
    simp only [prePhase1Ok, Bool.and_eq_true] at h
    exact h.1
  rw [buildRun_eq]
  simp only
  rw [buildM_events_eq]
  split
  · rw [List.append_nil, takeWhile_all_eq hnw]
    exact List.all_eq_true.mpr hna
  · rw [takeWhile_append_stop rfl hnw]
    exact List.all_eq_true.mpr hna

/-- C3 (counterexample): when every phase-0/1 step succeeds and the
phase-1 barrier reports failure, `build` returns `Except.ok ()` — nil,
success — to its caller, not the composite failure the claim
describes, even though the barrier was reached and failed. -/
theorem build_wait_failure_returns_ok :
    (buildRun waitFailEnv "./src" "./pub").2 = Except.ok ()
  ∧ BuildEvent.wait ∈ (buildRun waitFailEnv "./src" "./pub").1 := by
  constructor
  · rfl
  · decide

/-- C3 (amended): if the phase-1 barrier reports failure, the driver
does abort the remaining phases — no aggregate job is ever submitted —
but `build` then returns nil (`Except.ok ()`), leaving the composite
failure to the worker pool's own accounting rather than to `build`'s
return value. -/
theorem build_wait_failure_aborts (env : BuildEnv) (sd td : String)
    (hw : env.waitOk = false) :
    ((buildRun env sd td).1.all (fun e => !e.isAggregateEnqueue)) = true
  ∧ (BuildEvent.wait ∈ (buildRun env sd td).1 →
      (buildRun env sd td).2 = Except.ok ()) := by
  have h01 := phase01_events_ok env sd td
  have hall := List.all_eq_true.mp h01
  have hna : ∀ e ∈ (phase01M env sd td).events, (!e.isAggregateEnqueue) = true := by
    intro e he
    have h := hall e he
    simp only [prePhase1Ok, Bool.and_eq_true] at h
    exact h.1
  rw [buildRun_eq]
  simp only
  rw [buildM_events_eq, buildM_result_eq, hw]
  simp only [Bool.false_eq_true, if_false]
  cases hres : (phase01M env sd td).result with
  | error o =>
    constructor
    · simp only [List.append_nil]
      exact List.all_eq_true.mpr hna
    · intro hmem
      simp only [List.append_nil] at hmem
      have h := hall _ hmem
      simp [prePhase1Ok, BuildEvent.isWaitEv] at h
  | ok a =>
    constructor
    · rw [List.all_append, List.all_eq_true.mpr hna]
      rfl
    · intro _
      rfl

/-- C3 (witness): the abort theorem applied to the concrete
barrier-failure environment. -/
theorem build_wait_failure_aborts_witness :
    waitFailEnv.waitOk = false
  ∧ ((buildRun waitFailEnv "./site" "./out").1.all
      (fun e => !e.isAggregateEnqueue)) = true :=
  ⟨rfl, (build_wait_failure_aborts waitFailEnv "./site" "./out" rfl).1⟩

/-- C4: evaluating `build` where the first common-directory
`mfile.EnsureDir` (resp. the first `mfile.EnsureSymlink`) fails: the
build does abort immediately with no job submitted, but it returns nil
— the `return nil` in those loops discards the error, so the run is
reported as successful rather than failed. -/
theorem build_setup_error_swallowed :
    buildRun dirFailEnv "./src" "./pub" =
      ([BuildEvent.ensureDir "./pub/articles"], Except.ok ())
  ∧ buildRun symlinkFailEnv "./src" "./pub" =
      ([BuildEvent.ensureDir "./pub/articles", BuildEvent.ensureDir "./pub/fragments",
        BuildEvent.ensureDir "./pub/passages", BuildEvent.ensureDir "./pub/photos",
        BuildEvent.ensureDir "./tmp", BuildEvent.ensureDir "./pub/assets/74",
        BuildEvent.ensureSymlink "./src/content/fonts" "./pub/fonts"],
       Except.ok ()) := by
  constructor
  · rfl
  · rfl

end ModulirSample
